import Mathlib

/-!
Verification development for `tools/parse_stellaris_save.py`: a script that
extracts boolean and numeric "meta signals" from a Stellaris save text.

Embedding conventions:
* Python floats are embedded as exact rationals (`ℚ`); the decimal literals
  0.35, 0.65, 1.15 of the source become 35/100, 65/100, 115/100.
* Text is a `List Char` (or a `String` at the API level); `str.lower()` is
  `Char.toLower` mapped over the characters (ASCII semantics).
* The regex character classes `\d`, `\w`, `\s` are modelled with their ASCII
  meaning; the fixed patterns of the source contain only ASCII literals,
  the classes above, `\b`, `\s*`, `-?`, `(?:\.\d+)?` and grouping, so the
  scanners below implement exactly the leftmost, non-overlapping semantics
  of `re.findall` for those patterns. A matched number is first captured as
  a `NumTok` (sign, integer digits, fraction digits); `NumTok.val` is the
  exact rational `float()` / `int()` reads from the matched string.
* The JSON output dict is an association list `List (String × JVal)` in the
  source's insertion order (Python dicts preserve insertion order).
-/

namespace StellarisMap

/-- ASCII model of the regex class `\w`: letters, digits, underscore. -/
def isWordChar (c : Char) : Bool := c.isAlphanum || c == '_'

/-- ASCII model of the regex class `\s`: the six Python whitespace characters. -/
def isSpaceRe (c : Char) : Bool :=
  c == ' ' || c == '\t' || c == '\n' || c == '\r' || c == '\x0b' || c == '\x0c'

/-- Value of a digit run, as `int()` / the parts of `float()` read it. -/
def digitsToNat (ds : List Char) : Nat :=
  ds.foldl (fun a c => 10 * a + (c.toNat - 48)) 0

/-- A number matched by `-?\d+(?:\.\d+)?`: sign, value of the integer-part
digits, value of the fraction digits, and how many fraction digits there are
(`fp = 0`, `fl = 0` when the optional fraction is absent). -/
structure NumTok where
  neg : Bool
  ip : Nat
  fp : Nat
  fl : Nat
  deriving DecidableEq

/-- The exact rational value `float()` assigns to the matched string. -/
def NumTok.val (k : NumTok) : ℚ :=
  (if k.neg then -1 else 1) * ((k.ip : ℚ) + (k.fp : ℚ) / (10 : ℚ) ^ k.fl)

/-- Match a literal key at the head of `s`; on success return the rest. -/
def dropLit : List Char → List Char → Option (List Char)
  | [], s => some s
  | _ :: _, [] => none
  | k :: ks, c :: cs => if k == c then dropLit ks cs else none

/-- Attempt to match `key\s*=\s*(\d+)` at the head of `s` (the regex used for
`num_pops` and `num_planets`, minus the leading `\b` handled by the scanner).
Returns the captured number and the remaining text. -/
def tryMatchInt (key : List Char) (s : List Char) : Option (Nat × List Char) :=
  match dropLit key s with
  | none => none
  | some r1 =>
    match r1.dropWhile isSpaceRe with
    | '=' :: r3 =>
      let r4 := r3.dropWhile isSpaceRe
      let p := r4.span Char.isDigit
      if p.1.isEmpty then none else some (digitsToNat p.1, p.2)
    | _ => none

/-- Attempt to match `key\s*=\s*(-?\d+(?:\.\d+)?)` at the head of `s` (the
regex used for `alloys` and `energy`, minus the leading `\b` handled by the
scanner). Returns the captured number and the remaining text. A bare
trailing `.` without digits after it is not consumed, matching the
greedy-with-backtracking regex semantics. -/
def tryMatchNum (key : List Char) (s : List Char) : Option (NumTok × List Char) :=
  match dropLit key s with
  | none => none
  | some r1 =>
    match r1.dropWhile isSpaceRe with
    | '=' :: r3 =>
      let r4 := r3.dropWhile isSpaceRe
      let sgn : Bool := match r4 with | '-' :: _ => true | _ => false
      let r5 := match r4 with | '-' :: t => t | _ => r4
      let p := r5.span Char.isDigit
      if p.1.isEmpty then none
      else
        match p.2 with
        | '.' :: r7 =>
          let q := r7.span Char.isDigit
          if q.1.isEmpty then some (⟨sgn, digitsToNat p.1, 0, 0⟩, p.2)
          else some (⟨sgn, digitsToNat p.1, digitsToNat q.1, q.1.length⟩, q.2)
        | _ => some (⟨sgn, digitsToNat p.1, 0, 0⟩, p.2)
    | _ => none

/-- Model of `re.findall(r"\bkey\s*=\s*(\d+)", text)` followed by `int(m)`:
scan left to right; at a position whose previous character is not a word
character (the `\b` boundary — the keys start with a letter), try to match;
on success emit the number and continue after the match (non-overlapping);
otherwise advance one character. Every successful match ends in a digit, a
word character, so the boundary flag after a match is `true`. The fuel is
the text length; each step consumes at least one character, so it never
runs out. -/
def scanInt (key : List Char) : Nat → Bool → List Char → List Nat
  | 0, _, _ => []
  | _ + 1, _, [] => []
  | fuel + 1, pw, c :: rest =>
    if pw then scanInt key fuel (isWordChar c) rest
    else
      match tryMatchInt key (c :: rest) with
      | some (n, r) => n :: scanInt key fuel true r
      | none => scanInt key fuel (isWordChar c) rest

/-- Model of `re.findall(r"\bkey\s*=\s*(-?\d+(?:\.\d+)?)", text)`; same
scanning discipline as `scanInt`. -/
def scanNum (key : List Char) : Nat → Bool → List Char → List NumTok
  | 0, _, _ => []
  | _ + 1, _, [] => []
  | fuel + 1, pw, c :: rest =>
    if pw then scanNum key fuel (isWordChar c) rest
    else
      match tryMatchNum key (c :: rest) with
      | some (n, r) => n :: scanNum key fuel true r
      | none => scanNum key fuel (isWordChar c) rest

/-- All integer matches of `\bkey\s*=\s*(\d+)` in `t`. -/
def findInts (key : List Char) (t : List Char) : List Nat :=
  scanInt key t.length false t

/-- All numeric matches of `\bkey\s*=\s*(-?\d+(?:\.\d+)?)` in `t`. -/
def findNums (key : List Char) (t : List Char) : List NumTok :=
  scanNum key t.length false t

def popsKey : List Char := "num_pops".toList

def planetsKey : List Char := "num_planets".toList

def alloysKey : List Char := "alloys".toList

def energyKey : List Char := "energy".toList

/-- Substring search: model of `re.search(p, text)` for a literal pattern `p`
(the boolean patterns of `BOOL_KEYS` contain no regex metacharacters). -/
def containsSub (pat : List Char) : List Char → Bool
  | [] => pat.isEmpty
  | c :: cs => startsWithL pat (c :: cs) || containsSub pat cs
where
  startsWithL : List Char → List Char → Bool
    | [], _ => true
    | _ :: _, [] => false
    | p :: ps, c :: cs => p == c && startsWithL ps cs

/-- The pattern lists of `BOOL_KEYS`, in source order. -/
def bioPats : List (List Char) :=
  ["ap_engineered_evolution".toList, "ap_evolutionary_mastery".toList]

def virtPats : List (List Char) :=
  ["virtuality".toList, "machine_age".toList]

def ringPats : List (List Char) :=
  ["origin_shattered_ring".toList]

/-- Model of `any(re.search(p, lower) for p in pats)`. -/
def detects (pats : List (List Char)) (t : List Char) : Bool :=
  pats.any fun p => containsSub p t

/-- The `ratio` helper: `if den <= 0: return 0.0; return max(0.0, min(1.0, num / den))`.
No division is performed in the `den ≤ 0` branch. -/
def ratioClamp (num den : ℚ) : ℚ :=
  if den ≤ 0 then 0 else max 0 (min 1 (num / den))

/-- `total_pops = sum(pops) if pops else 0` (the `if` is redundant: the sum
of the empty list is 0). -/
def total_pops (t : List Char) : Nat := (findInts popsKey t).sum

def total_planets (t : List Char) : Nat := (findInts planetsKey t).sum

def total_alloys (t : List Char) : ℚ := ((findNums alloysKey t).map NumTok.val).sum

def total_energy (t : List Char) : ℚ := ((findNums energyKey t).map NumTok.val).sum

/-- `ratio(total_pops, max(1, total_planets * 40))`: the inner `max` is
Python integer arithmetic, cast to a rational at the call. -/
def pop_growth_pressure (t : List Char) : ℚ :=
  ratioClamp (total_pops t) ((max 1 (total_planets t * 40) : Nat) : ℚ)

/-- `ratio(total_planets, max(1, total_pops / 28 if total_pops else 1))`:
true division, conditional on `total_pops` being nonzero. -/
def planet_capacity_pressure (t : List Char) : ℚ :=
  ratioClamp (total_planets t)
    (max 1 (if total_pops t ≠ 0 then (total_pops t : ℚ) / 28 else 1))

/-- `ratio(total_alloys, max(1.0, total_energy + total_alloys))`. -/
def alloy_density (t : List Char) : ℚ :=
  ratioClamp (total_alloys t) (max 1 (total_energy t + total_alloys t))

/-- `max(1.0, total_energy * 0.35 + total_alloys * 0.65)`. -/
def our_total_economy (t : List Char) : ℚ :=
  max 1 (total_energy t * (35 / 100) + total_alloys t * (65 / 100))

/-- `max(1.0, our_total_economy * 1.15)`. -/
def enemy_total_economy (t : List Char) : ℚ :=
  max 1 (our_total_economy t * (115 / 100))

/-- JSON-ish values appearing in the script's output mapping. -/
inductive JVal where
  | jb (b : Bool)
  | jq (q : ℚ)
  | js (s : String)
  | jobj (fields : List (String × JVal))

/-- `extract_meta(text)`: lower-case the text, fill the three booleans from
`BOOL_KEYS`, then the five derived numeric fields, in the source's insertion
order. -/
def extract_meta (text : String) : List (String × JVal) :=
  let lower := text.toList.map Char.toLower
  [("bio_ascension", JVal.jb (detects bioPats lower)),
   ("machine_age_virtuality", JVal.jb (detects virtPats lower)),
   ("shattered_ring_origin", JVal.jb (detects ringPats lower)),
   ("pop_growth_pressure", JVal.jq (pop_growth_pressure lower)),
   ("planet_capacity_pressure", JVal.jq (planet_capacity_pressure lower)),
   ("alloy_density", JVal.jq (alloy_density lower)),
   ("our_total_economy", JVal.jq (our_total_economy lower)),
   ("enemy_total_economy", JVal.jq (enemy_total_economy lower))]

/-- A save file as the loader sees it: either a plain text file, or a zip
archive (named member list plus `rawText`, the lenient text decoding of the
raw bytes that `read_text` would produce). `suffixLower` is
`path.suffix.lower()`. -/
inductive SaveFile where
  | plainFile (suffixLower : String) (text : String)
  | zipFile (suffixLower : String) (entries : List (String × String)) (rawText : String)

/-- `for name in ("gamestate", "meta"): if name in zf.namelist(): return ...` -/
def zipMember (entries : List (String × String)) : Option String :=
  match List.lookup "gamestate" entries with
  | some c => some c
  | none => List.lookup "meta" entries

/-- `load_save_text`: a `.zip`/`.sav` suffix routes through the zip reader
(preferring `gamestate`, then `meta`; with neither member present the
function falls through to `read_text`); any other suffix reads the file as
text. Opening a non-archive with a `.zip`/`.sav` suffix raises `BadZipFile`,
modelled as `none` (the loader's one fatal path). Decoding is lenient and
modelled as the identity on the decoded string. -/
def load_save_text : SaveFile → Option String
  | .plainFile suf text =>
    if suf = ".zip" ∨ suf = ".sav" then none else some text
  | .zipFile suf entries raw =>
    if suf = ".zip" ∨ suf = ".sav" then some ((zipMember entries).getD raw)
    else some raw

/-- The fallback dict built by `main`'s `except` branch:
`{"error": str(exc), "bio_rush_confidence": 0.0, "virtuality_confidence": 0.0}`. -/
def steam_fallback (e : String) : List (String × JVal) :=
  [("error", JVal.js e),
   ("bio_rush_confidence", JVal.jq 0),
   ("virtuality_confidence", JVal.jq 0)]

/-- Outcome of `fetch_steam_meta()`: either the two confidences it computed,
or the `str(exc)` of the exception it raised. The network interaction itself
is not modelled; `main` only sees this outcome. -/
def steam_result : Except String (ℚ × ℚ) → List (String × JVal)
  | .ok (b, v) =>
    [("bio_rush_confidence", JVal.jq b), ("virtuality_confidence", JVal.jq v)]
  | .error e => steam_fallback e

/-- The output mapping `main` prints: `extract_meta` of the loaded text,
plus the `steam_meta_signals` entry exactly when `--with-steam` was passed
(`json.dumps` then sorts keys for display; key membership is unaffected). -/
def main_output (text : String) (withSteam : Bool)
    (fetch : Except String (ℚ × ℚ)) : List (String × JVal) :=
  extract_meta text ++
    (if withSteam then [("steam_meta_signals", JVal.jobj (steam_result fetch))] else [])

end StellarisMap

namespace StellarisMap

lemma ratioClamp_nonneg (n d : ℚ) : 0 ≤ ratioClamp n d := by
  unfold ratioClamp
  split
  · exact le_refl 0
  · exact le_max_left 0 _

lemma ratioClamp_le_one (n d : ℚ) : ratioClamp n d ≤ 1 := by
  unfold ratioClamp
  split
  · exact zero_le_one
  · exact max_le zero_le_one (min_le_left 1 _)

/-- C1: for every input text, the derived fields `pop_growth_pressure`,
`planet_capacity_pressure` and `alloy_density` lie in the closed interval
[0, 1], and `our_total_economy` and `enemy_total_economy` are each ≥ 1,
regardless of what numeric values (including negative alloy/energy sums)
the text yields. -/
theorem c1_derived_fields_bounded (t : List Char) :
    0 ≤ pop_growth_pressure t ∧ pop_growth_pressure t ≤ 1 ∧
    0 ≤ planet_capacity_pressure t ∧ planet_capacity_pressure t ≤ 1 ∧
    0 ≤ alloy_density t ∧ alloy_density t ≤ 1 ∧
    1 ≤ our_total_economy t ∧ 1 ≤ enemy_total_economy t :=
  ⟨ratioClamp_nonneg _ _, ratioClamp_le_one _ _,
   ratioClamp_nonneg _ _, ratioClamp_le_one _ _,
   ratioClamp_nonneg _ _, ratioClamp_le_one _ _,
   le_max_left 1 _, le_max_left 1 _⟩

/-- C2: whenever `our_total_economy` exceeds the 1.0 floor,
`enemy_total_economy` equals exactly 1.15 × `our_total_economy`. -/
theorem c2_fixed_ratio (t : List Char) (h : 1 < our_total_economy t) :
    enemy_total_economy t = 115 / 100 * our_total_economy t := by
  have h1 : (1 : ℚ) ≤ our_total_economy t * (115 / 100) := by nlinarith
  unfold enemy_total_economy
  rw [max_eq_right h1, mul_comm]

lemma our_economy_energy100 : our_total_economy ("energy = 100".toList) = 35 := by
  have he : findNums energyKey ("energy = 100".toList) = [⟨false, 100, 0, 0⟩] := by decide
  have ha : findNums alloysKey ("energy = 100".toList) = [] := by decide
  unfold our_total_economy total_energy total_alloys
  rw [he, ha]
  simp [NumTok.val]
  norm_num [max_def]

/-- Witness for C2 at the concrete text `energy = 100`, whose economy total
is 35. -/
theorem c2_fixed_ratio_witness :
    1 < our_total_economy ("energy = 100".toList) ∧
    enemy_total_economy ("energy = 100".toList) =
      115 / 100 * our_total_economy ("energy = 100".toList) :=
  ⟨by rw [our_economy_energy100]; norm_num,
   c2_fixed_ratio ("energy = 100".toList) (by rw [our_economy_energy100]; norm_num)⟩

/-- C3 counterexample: the text `hello` matches none of the four numeric
patterns, yet `enemy_total_economy` is 1.15 (= max(1.0, 1.0 × 1.15)), not
1.0 as the claim states for both economy totals. -/
theorem c3_counterexample :
    findInts popsKey "hello".toList = [] ∧
    findInts planetsKey "hello".toList = [] ∧
    findNums alloysKey "hello".toList = [] ∧
    findNums energyKey "hello".toList = [] ∧
    enemy_total_economy "hello".toList = 23 / 20 ∧
    (23 / 20 : ℚ) ≠ 1 := by
  refine ⟨by decide, by decide, by decide, by decide, ?_, by norm_num⟩
  have ha : findNums alloysKey "hello".toList = [] := by decide
  have he : findNums energyKey "hello".toList = [] := by decide
  unfold enemy_total_economy our_total_economy total_energy total_alloys
  rw [ha, he]
  simp
  norm_num [max_def]

/-- C3 amended: when none of the four numeric patterns matches, the three
ratio fields are 0.0 and `our_total_economy` is 1.0, but
`enemy_total_economy` is 1.15 — the floor times the fixed multiplier — not
1.0. -/
theorem c3_no_matches (t : List Char)
    (hp : findInts popsKey t = []) (hpl : findInts planetsKey t = [])
    (ha : findNums alloysKey t = []) (he : findNums energyKey t = []) :
    pop_growth_pressure t = 0 ∧ planet_capacity_pressure t = 0 ∧
    alloy_density t = 0 ∧ our_total_economy t = 1 ∧
    enemy_total_economy t = 23 / 20 := by
  have h1 : total_pops t = 0 := by simp [total_pops, hp]
  have h2 : total_planets t = 0 := by simp [total_planets, hpl]
  have h3 : total_alloys t = 0 := by simp [total_alloys, ha]
  have h4 : total_energy t = 0 := by simp [total_energy, he]
  have h5 : our_total_economy t = 1 := by
    unfold our_total_economy
    rw [h3, h4]
    norm_num [max_def]
  refine ⟨?_, ?_, ?_, h5, ?_⟩
  · unfold pop_growth_pressure
    rw [h1, h2]
    norm_num [ratioClamp, max_def, min_def]
  · unfold planet_capacity_pressure
    rw [h1, h2]
    norm_num [ratioClamp, max_def, min_def]
  · unfold alloy_density
    rw [h3, h4]
    norm_num [ratioClamp, max_def, min_def]
  · unfold enemy_total_economy
    rw [h5]
    norm_num [max_def]

/-- Witness for C3 (amended) at the concrete text `zz`. -/
theorem c3_no_matches_witness :
    findInts popsKey "zz".toList = [] ∧
    findInts planetsKey "zz".toList = [] ∧
    findNums alloysKey "zz".toList = [] ∧
    findNums energyKey "zz".toList = [] ∧
    (pop_growth_pressure "zz".toList = 0 ∧
     planet_capacity_pressure "zz".toList = 0 ∧
     alloy_density "zz".toList = 0 ∧ our_total_economy "zz".toList = 1 ∧
     enemy_total_economy "zz".toList = 23 / 20) :=
  ⟨by decide, by decide, by decide, by decide,
   c3_no_matches "zz".toList (by decide) (by decide) (by decide) (by decide)⟩

/-- C4 counterexample: in the text `num_pops = -5` there is an occurrence of
the generic `key = number` pattern with a (negative) number — the matcher
the source uses for alloys and energy finds it for the key `num_pops` —
but the code's pops extraction uses a digits-only pattern, so its total is 0,
not −5: for `num_pops` the number may not be negative or decimal. -/
theorem c4_counterexample :
    total_pops "num_pops = -5".toList = 0 ∧
    findNums popsKey "num_pops = -5".toList = [⟨true, 5, 0, 0⟩] ∧
    ((findNums popsKey "num_pops = -5".toList).map NumTok.val).sum = -5 ∧
    ((-5 : ℚ) ≠ (total_pops "num_pops = -5".toList : ℚ)) := by
  refine ⟨by decide, by decide, ?_, ?_⟩
  · have h : findNums popsKey "num_pops = -5".toList = [⟨true, 5, 0, 0⟩] := by decide
    rw [h]
    simp [NumTok.val]
  · have h : total_pops "num_pops = -5".toList = 0 := by decide
    rw [h]
    norm_num

/-- C4 amended: each of the four totals is the sum of all matched
occurrences of its pattern, and absence of matches yields a zero sum; the
number may be negative or decimal only for `alloys` and `energy` (matched by
`scanNum`), while `num_pops` and `num_planets` match unsigned integers only
(`scanInt`). The two closing conjuncts exercise summation of several
occurrences, including a negative decimal one. -/
theorem c4_sums (t : List Char) :
    total_pops t = (findInts popsKey t).sum ∧
    total_planets t = (findInts planetsKey t).sum ∧
    total_alloys t = ((findNums alloysKey t).map NumTok.val).sum ∧
    total_energy t = ((findNums energyKey t).map NumTok.val).sum ∧
    (findInts popsKey t = [] → total_pops t = 0) ∧
    (findInts planetsKey t = [] → total_planets t = 0) ∧
    (findNums alloysKey t = [] → total_alloys t = 0) ∧
    (findNums energyKey t = [] → total_energy t = 0) ∧
    total_alloys ("alloys = -2.5 alloys = 4".toList) = 3 / 2 ∧
    total_pops ("num_pops = 3 num_pops = 4".toList) = 7 := by
  refine ⟨rfl, rfl, rfl, rfl, ?_, ?_, ?_, ?_, ?_, by decide⟩
  · intro h; simp [total_pops, h]
  · intro h; simp [total_planets, h]
  · intro h; simp [total_alloys, h]
  · intro h; simp [total_energy, h]
  · have h : findNums alloysKey ("alloys = -2.5 alloys = 4".toList) =
        [⟨true, 2, 5, 1⟩, ⟨false, 4, 0, 0⟩] := by decide
    unfold total_alloys
    rw [h]
    simp [NumTok.val]
    norm_num

/-- Witness for C4 (amended) at the concrete text `q`. -/
theorem c4_sums_witness :
    findInts popsKey "q".toList = [] ∧ total_pops "q".toList = 0 :=
  ⟨by decide, (c4_sums "q".toList).2.2.2.2.1 (by decide)⟩

end StellarisMap

namespace StellarisMap

/-- C5 counterexample: `main` stores `str(exc)` verbatim in the `error`
field, and an exception whose text is empty yields an empty `error` string —
the field is not always non-empty. Here the fetch outcome is an exception
with empty text, and the `error` field of `steam_meta_signals` is `""`. -/
theorem c5_counterexample :
    List.lookup "steam_meta_signals" (main_output "" true (Except.error "")) =
      some (JVal.jobj [("error", JVal.js ""),
        ("bio_rush_confidence", JVal.jq 0),
        ("virtuality_confidence", JVal.jq 0)]) ∧
    ("" : String).length = 0 :=
  ⟨rfl, rfl⟩

/-- C5 amended: when the fetcher raises any exception and the fetch flag is
enabled, the output contains a `steam_meta_signals` mapping whose `error`
field is exactly the exception's text (possibly empty) and whose two
confidence fields are 0.0; the failure is absorbed (the output mapping is
still produced), never a crash. -/
theorem c5_fetch_failure (text e : String) :
    List.lookup "steam_meta_signals" (main_output text true (Except.error e)) =
      some (JVal.jobj [("error", JVal.js e),
        ("bio_rush_confidence", JVal.jq 0),
        ("virtuality_confidence", JVal.jq 0)]) :=
  rfl

/-- C6: a zip archive whose `gamestate` entry holds the text `c` and a plain
text file holding `c` load to the same string, so extraction agrees on the
two routes for every content; in particular, when the lower-cased content
contains `origin_shattered_ring`, the `shattered_ring_origin` flag is true. -/
theorem c6_loader_equivalence (c raw : String) :
    load_save_text (SaveFile.zipFile ".sav" [("gamestate", c)] raw) = some c ∧
    load_save_text (SaveFile.plainFile ".txt" c) = some c ∧
    (load_save_text (SaveFile.zipFile ".sav" [("gamestate", c)] raw)).map
        extract_meta =
      (load_save_text (SaveFile.plainFile ".txt" c)).map extract_meta ∧
    (containsSub ("origin_shattered_ring".toList) (c.toList.map Char.toLower) = true →
      List.lookup "shattered_ring_origin" (extract_meta c) = some (JVal.jb true)) := by
  refine ⟨rfl, rfl, rfl, ?_⟩
  intro h
  have e : List.lookup "shattered_ring_origin" (extract_meta c) =
      some (JVal.jb (containsSub ("origin_shattered_ring".toList)
        (c.toList.map Char.toLower) || false)) := rfl
  rw [e, h]
  rfl

/-- Witness for C6 at the concrete content `a origin_shattered_ring b`
(zip route, plain route, and the flag). -/
theorem c6_loader_equivalence_witness :
    load_save_text
        (SaveFile.zipFile ".sav" [("gamestate", "a origin_shattered_ring b")] "") =
      some "a origin_shattered_ring b" ∧
    load_save_text (SaveFile.plainFile ".txt" "a origin_shattered_ring b") =
      some "a origin_shattered_ring b" ∧
    List.lookup "shattered_ring_origin" (extract_meta "a origin_shattered_ring b") =
      some (JVal.jb true) :=
  ⟨(c6_loader_equivalence "a origin_shattered_ring b" "").1,
   (c6_loader_equivalence "a origin_shattered_ring b" "").2.1,
   (c6_loader_equivalence "a origin_shattered_ring b" "").2.2.2 (by decide)⟩

/-- C7: with the fetch flag disabled, the output mapping has no
`steam_meta_signals` key, for every input text and every fetch outcome
(reachable or not). -/
theorem c7_no_steam_key (text : String) (fetch : Except String (ℚ × ℚ)) :
    List.lookup "steam_meta_signals" (main_output text false fetch) = none :=
  rfl

/-- C8: for any text whose alloys matches are exactly one occurrence of 50
and whose energy matches are exactly one occurrence of 50 (and no pops or
planets matches), `alloy_density` is 0.5 and `our_total_economy` is
50 × 0.35 + 50 × 0.65 = 50. -/
theorem c8_alloys_energy_50 (t : List Char)
    (ha : findNums alloysKey t = [⟨false, 50, 0, 0⟩])
    (he : findNums energyKey t = [⟨false, 50, 0, 0⟩])
    (hp : findInts popsKey t = []) (hpl : findInts planetsKey t = []) :
    alloy_density t = 1 / 2 ∧ our_total_economy t = 50 := by
  have h3 : total_alloys t = 50 := by
    unfold total_alloys
    rw [ha]
    simp [NumTok.val]
  have h4 : total_energy t = 50 := by
    unfold total_energy
    rw [he]
    simp [NumTok.val]
  constructor
  · unfold alloy_density
    rw [h3, h4]
    norm_num [ratioClamp, max_def, min_def]
  · unfold our_total_economy
    rw [h3, h4]
    norm_num [max_def]

/-- Witness for C8 at the concrete text `alloys = 50 energy = 50`. -/
theorem c8_alloys_energy_50_witness :
    findNums alloysKey "alloys = 50 energy = 50".toList = [⟨false, 50, 0, 0⟩] ∧
    findNums energyKey "alloys = 50 energy = 50".toList = [⟨false, 50, 0, 0⟩] ∧
    alloy_density "alloys = 50 energy = 50".toList = 1 / 2 ∧
    our_total_economy "alloys = 50 energy = 50".toList = 50 :=
  ⟨by decide, by decide,
   (c8_alloys_energy_50 "alloys = 50 energy = 50".toList (by decide) (by decide)
      (by decide) (by decide)).1,
   (c8_alloys_energy_50 "alloys = 50 energy = 50".toList (by decide) (by decide)
      (by decide) (by decide)).2⟩

/-- C9: the ratio helper is total and division-safe: a denominator ≤ 0
returns 0.0 from the guard branch (which performs no division), a positive
denominator returns the quotient clamped to [0, 1]; and the denominator the
extractor passes at each of its three call sites is strictly positive, so
no division by zero is reachable. -/
theorem c9_ratio_division_safe (num den : ℚ) :
    (den ≤ 0 → ratioClamp num den = 0) ∧
    (0 < den → ratioClamp num den = max 0 (min 1 (num / den))) ∧
    (∀ t : List Char,
      0 < ((max 1 (total_planets t * 40) : Nat) : ℚ) ∧
      0 < max 1 (if total_pops t ≠ 0 then (total_pops t : ℚ) / 28 else 1) ∧
      0 < max 1 (total_energy t + total_alloys t)) := by
  refine ⟨?_, ?_, ?_⟩
  · intro h
    unfold ratioClamp
    rw [if_pos h]
  · intro h
    unfold ratioClamp
    rw [if_neg (not_le.mpr h)]
  · intro t
    refine ⟨?_, ?_, ?_⟩
    · exact_mod_cast Nat.lt_of_lt_of_le Nat.zero_lt_one (le_max_left 1 _)
    · exact lt_of_lt_of_le zero_lt_one (le_max_left 1 _)
    · exact lt_of_lt_of_le zero_lt_one (le_max_left 1 _)

/-- Witness for C9 at the concrete pairs (5, 0) and (5, 10). -/
theorem c9_ratio_division_safe_witness :
    ratioClamp 5 0 = 0 ∧ ratioClamp 5 10 = max 0 (min 1 (5 / 10)) :=
  ⟨(c9_ratio_division_safe 5 0).1 (le_refl 0),
   (c9_ratio_division_safe 5 10).2.1 (by norm_num)⟩

/-- C10: for every input text, the extraction output has exactly the eight
keys, in the source's insertion order; none is omitted and none is added. -/
theorem c10_output_keys (text : String) :
    (extract_meta text).map Prod.fst =
      ["bio_ascension", "machine_age_virtuality", "shattered_ring_origin",
       "pop_growth_pressure", "planet_capacity_pressure", "alloy_density",
       "our_total_economy", "enemy_total_economy"] :=
  rfl

end StellarisMap
